import Mathlib

/-!
Verification of the answer-scoring and mark-scheme reconciliation core of the
Intellimark test grader.

The development shallowly embeds the relevant TypeScript code:
* the mark-scheme normalizer of `parseExcelWithColumnMap`
  (client/src/lib/utils.ts) together with `markSchemeRowSchema`
  (shared/schema.ts);
* the per-page answer aggregation and summary scoring of
  `processImagesMutation` (client/src/hooks/use-test-grader.ts);
* the in-memory store `MemStorage` (server/storage.ts) and the
  mark-scheme upload route of `registerRoutes` (server/routes.ts).

JavaScript values appearing in spreadsheet cells are modelled by `JSValue`
(numbers as integers: all numerics that matter here are integral).  JS string
operations are modelled by the corresponding Lean `String` operations
(`toUpper` for `toUpperCase`, `trim` for `trim`, both agree on the ASCII data
the program handles).  JS objects used as string-keyed maps are modelled as
association lists in key-insertion order, which mirrors JS object key order.
-/

/-- A JavaScript value as it appears in a parsed spreadsheet cell.
Numbers are modelled as integers (the program only deals in integral cells). -/
inductive JSValue where
  | num (n : Int)
  | str (s : String)
  | undef
  | null
deriving BEq, DecidableEq, Repr

/-- JS truthiness for the values modelled by `JSValue`
(`0`, `""`, `undefined` and `null` are falsy). -/
def jsTruthy : JSValue → Bool
  | .num n => n != 0
  | .str s => s != ""
  | .undef => false
  | .null => false

/-- The decimal digit character for `n % 10`-style arguments. -/
def digitChar (n : Nat) : Char :=
  match n with
  | 0 => '0' | 1 => '1' | 2 => '2' | 3 => '3' | 4 => '4'
  | 5 => '5' | 6 => '6' | 7 => '7' | 8 => '8' | _ => '9'

/-- Decimal representation of a natural number, as a list of digit
characters; structural recursion on a fuel bound so that the kernel can
evaluate it. -/
def decCharsFuel : Nat → Nat → List Char
  | 0, _ => []
  | fuel + 1, n =>
    if n < 10 then [digitChar n]
    else decCharsFuel fuel (n / 10) ++ [digitChar (n % 10)]

/-- Decimal representation of a natural number, as a list of digit
characters (the semantics of a JS template literal on a nonnegative int). -/
def decChars (n : Nat) : List Char := decCharsFuel (n + 1) n

/-- Decimal string of a natural number (JS `String(n)` or a template literal). -/
def decStr (n : Nat) : String := String.mk (decChars n)

/-- JS `String(v)` conversion: `String(undefined) = "undefined"`,
`String(null) = "null"`. -/
def jsToString : JSValue → String
  | .num n => if n < 0 then "-" ++ decStr (-n).toNat else decStr n.toNat
  | .str s => s
  | .undef => "undefined"
  | .null => "null"

/-- JS `s.replace(/\D/g, '')`: keep only decimal digit characters. -/
def digitsOnly (s : String) : String := String.mk (s.data.filter Char.isDigit)

/-- JS `parseInt` restricted to the call sites of the normalizer, where the
argument is a nonempty all-digit string: its decimal value. -/
def natOfDigits (s : String) : Nat :=
  s.data.foldl (fun a c => a * 10 + (c.toNat - 48)) 0

/-- JS `s || t` on strings: `t` when `s` is empty. -/
def orIfEmpty (s t : String) : String := if s = "" then t else s

/-- JS `toUpperCase` on the ASCII data the program handles
(kernel-evaluable, unlike `String.toUpper`). -/
def jsUpper (s : String) : String := String.mk (s.data.map Char.toUpper)

/-- JS `toLowerCase` on the ASCII data the program handles. -/
def jsLower (s : String) : String := String.mk (s.data.map Char.toLower)

/-- JS `trim` (strip leading and trailing whitespace). -/
def jsTrim (s : String) : String :=
  String.mk (((s.data.dropWhile Char.isWhitespace).reverse.dropWhile
    Char.isWhitespace).reverse)

/-- Question-number coercion for one row (utils.ts lines 203-206 and 238-240):
missing (`undefined`/`null`) cells fall back to the number `index + 1`;
a numeric cell is kept as is; any other cell is stringified, stripped of
non-digits (`.replace(/\D/g, '')`), with the empty result replaced by the
template string of `index + 1`, and parsed with `parseInt`. -/
def coerceQuestionNumber (cell : JSValue) (index : Nat) : Int :=
  let qn : JSValue :=
    match cell with
    | .undef => .num (Int.ofNat (index + 1))
    | .null => .num (Int.ofNat (index + 1))
    | c => c
  match qn with
  | .num n => n
  | q => Int.ofNat (natOfDigits (orIfEmpty (digitsOnly (jsToString q)) (decStr (index + 1))))

/-- Expected-answer coercion for one row (utils.ts lines 209-226):
missing cells and the literal string `"undefined"` (any case) become the empty
string, the empty string stays empty, and any other cell is stringified and
trimmed, with a single alphabetic character uppercased. -/
def coerceExpectedAnswer (cell : JSValue) : String :=
  match cell with
  | .undef => ""
  | .null => ""
  | c =>
    if c = .str "undefined" ∨ jsLower (jsToString c) = "undefined" then ""
    else if c = .str "" then ""
    else
      let answerStr := jsTrim (jsToString c)
      match answerStr.data with
      | [ch] => if ch.isAlpha then jsUpper answerStr else answerStr
      | _ => answerStr

/-- Points coercion for one row (utils.ts lines 194, 229-232 and 242-244):
a falsy cell (`undefined`, `null`, `""`, `0`) defaults to the number 1;
a numeric cell is kept; any other cell is stringified, stripped of non-digits,
with the empty result replaced by `"1"`, parsed, and a parsed `0` (falsy)
replaced by 1. -/
def coercePoints (cell : JSValue) : Int :=
  let pts : JSValue := if jsTruthy cell then cell else .num 1
  let pts : JSValue :=
    if pts = .undef ∨ pts = .null ∨ pts = .str "" then .num 1 else pts
  match pts with
  | .num n => n
  | p =>
    let d := digitsOnly (jsToString p)
    let v := natOfDigits (orIfEmpty d "1")
    Int.ofNat (if v = 0 then 1 else v)

/-- A validated mark-scheme row (shared/schema.ts, `MarkSchemeRow`). -/
structure MarkSchemeRow where
  questionNumber : Nat
  expectedAnswer : String
  points : Nat
deriving DecidableEq, Repr

/-- `markSchemeRowSchema.parse` (shared/schema.ts lines 90-94): the question
number must be a positive integer, the expected answer a string of length at
least 1 (`z.string().min(1)`), the points a nonnegative integer. -/
def markSchemeRowParse (q : Int) (ea : String) (p : Int) :
    Except String MarkSchemeRow :=
  if q ≤ 0 then .error "questionNumber: Number must be greater than 0"
  else if ea.length = 0 then .error "expectedAnswer: String must contain at least 1 character(s)"
  else if p < 0 then .error "points: Number must be greater than or equal to 0"
  else .ok ⟨q.toNat, ea, p.toNat⟩

/-- One raw spreadsheet row restricted to the three mapped columns
(question number, expected answer, points). -/
structure RawRow where
  questionCell : JSValue
  answerCell : JSValue
  pointsCell : JSValue
deriving DecidableEq, Repr

/-- Normalization of one raw row at 0-based `index`
(utils.ts lines 190-253): coercion of the three cells followed by
`markSchemeRowSchema.parse`; a validation failure is rethrown as a
row-labelled error. -/
def normalizeRow (row : RawRow) (index : Nat) : Except String MarkSchemeRow :=
  match markSchemeRowParse (coerceQuestionNumber row.questionCell index)
      (coerceExpectedAnswer row.answerCell) (coercePoints row.pointsCell) with
  | .ok r => .ok r
  | .error e =>
      .error ("Row " ++ decStr (index + 1) ++ " has invalid data: " ++ e)

/-- Normalization of a batch of rows: `jsonData.map(...)` throws at the first
failing row, so the whole upload fails all-or-nothing. -/
def normalizeRows (rows : List RawRow) : Except String (List MarkSchemeRow) :=
  let rec go (idx : Nat) : List RawRow → Except String (List MarkSchemeRow)
    | [] => .ok []
    | r :: rest =>
      match normalizeRow r idx with
      | .error e => .error e
      | .ok v =>
        match go (idx + 1) rest with
        | .error e => .error e
        | .ok vs => .ok (v :: vs)
  go 0 rows

/-- A JS object used as a `string → string` map, as an association list in
key-insertion order. -/
abbrev AnswerMap : Type := List (String × String)

/-- Property lookup `m[k]` (first binding; reachable maps have unique keys). -/
def alookup (k : String) : AnswerMap → Option String
  | [] => none
  | (k', v) :: rest => if k' == k then some v else alookup k rest

/-- Property write `m[k] = v`: an existing key keeps its position and gets the
new value, a new key is appended (JS object key order). -/
def mset (m : AnswerMap) (k v : String) : AnswerMap :=
  if m.any (fun kv => kv.1 == k) then
    m.map (fun kv => if kv.1 == k then (k, v) else kv)
  else m ++ [(k, v)]

/-- `Object.assign(m, src)`: write each binding of `src` into `m` in order. -/
def objAssign (m : AnswerMap) (src : AnswerMap) : AnswerMap :=
  src.foldl (fun acc kv => mset acc kv.1 kv.2) m

/-- A stored mark-scheme entry (shared/schema.ts `markSchemeEntries`).
The integer columns are nonnegative in every reachable state, so they are
modelled as `Nat`. -/
structure MarkSchemeEntry where
  id : Nat
  questionNumber : Nat
  expectedAnswer : String
  points : Nat
  testId : Nat
deriving DecidableEq, Repr

/-- A test record (shared/schema.ts `tests`). -/
structure Test where
  id : Nat
  name : String
  totalQuestions : Nat
  totalPoints : Nat
deriving DecidableEq, Repr

/-- A captured page (shared/schema.ts `pages`). -/
structure Page where
  id : Nat
  testId : Nat
  pageNumber : Nat
  imageData : String
  processed : Bool
  extractedAnswers : AnswerMap
deriving DecidableEq, Repr

/-- A stored result (shared/schema.ts `results`). `scorePercentage` is an
`Option Nat`: `none` models the JS `NaN` that the client scorer can produce. -/
structure StoredResult where
  id : Nat
  testId : Nat
  studentAnswers : AnswerMap
  pointsEarned : Nat
  totalPoints : Nat
  scorePercentage : Option Nat
deriving DecidableEq, Repr

/-- A detailed per-question result (shared/schema.ts `resultItemSchema`). -/
structure ResultItem where
  questionNumber : Nat
  studentAnswer : String
  expectedAnswer : String
  points : Nat
  earnedPoints : Nat
  correct : Bool
deriving DecidableEq, Repr

/-- Aggregation of the extracted answers of the captured pages, in the order
the pages are iterated (use-test-grader.ts lines 153-171):
`Object.assign(results, data.extractedAnswers)` for each page in turn. -/
def mergePages (pages : List Page) : AnswerMap :=
  pages.foldl (fun acc p => objAssign acc p.extractedAnswers) []

/-- The client's per-entry correctness test (use-test-grader.ts line 186):
`studentAnswer && studentAnswer.toUpperCase() === entry.expectedAnswer.toUpperCase()`.
A missing or empty student answer is falsy, so it never counts as correct here. -/
def clientCorrect (results : AnswerMap) (e : MarkSchemeEntry) : Bool :=
  match alookup (decStr e.questionNumber) results with
  | some sa => sa != "" && jsUpper sa == jsUpper e.expectedAnswer
  | none => false

/-- `totalPoints` accumulated over the mark scheme (use-test-grader.ts line 183). -/
def summaryTotalPoints (markScheme : List MarkSchemeEntry) : Nat :=
  markScheme.foldl (fun acc e => acc + e.points) 0

/-- `pointsEarned` accumulated over the mark scheme
(use-test-grader.ts lines 185-188). -/
def summaryPointsEarned (markScheme : List MarkSchemeEntry) (results : AnswerMap) : Nat :=
  markScheme.foldl (fun acc e => if clientCorrect results e then acc + e.points else acc) 0

/-- `Math.round((pointsEarned / totalPoints) * 100)` (use-test-grader.ts
line 191).  There is no guard: when `totalPoints` is `0` the JS division
yields `NaN` (modelled `none`); otherwise the exact half-up rounding
`⌊(100 p / t) + 1/2⌋ = (200 p + t) / (2 t)`. -/
def scorePercentageJS (markScheme : List MarkSchemeEntry) (results : AnswerMap) :
    Option Nat :=
  let p := summaryPointsEarned markScheme results
  let t := summaryTotalPoints markScheme
  if t = 0 then none else some ((200 * p + t) / (2 * t))

/-- The `MemStorage` state. -/
structure Storage where
  markSchemeEntries : List MarkSchemeEntry
  tests : List Test
  pages : List Page
  results : List StoredResult
  currentMarkSchemeEntryId : Nat
  currentTestId : Nat
  currentPageId : Nat
  currentResultId : Nat
deriving DecidableEq, Repr

/-- The constructor's state: empty maps, all id counters at 1. -/
def Storage.empty : Storage :=
  ⟨[], [], [], [], 1, 1, 1, 1⟩

/-- Argument of `addMarkSchemeEntry` (`InsertMarkSchemeEntry`). -/
structure InsertMarkSchemeEntry where
  questionNumber : Nat
  expectedAnswer : String
  points : Nat
  testId : Nat
deriving DecidableEq, Repr

/-- Argument of `createTest` (`InsertTest`). -/
structure InsertTest where
  name : String
  totalQuestions : Nat
  totalPoints : Nat
deriving DecidableEq, Repr

/-- Argument of `addResult` (`InsertResult`). -/
structure InsertResult where
  testId : Nat
  studentAnswers : AnswerMap
  pointsEarned : Nat
  totalPoints : Nat
  scorePercentage : Option Nat
deriving DecidableEq, Repr

/-- `MemStorage.addMarkSchemeEntry` (storage.ts lines 86-111): assign the next
id, trim the expected answer (`String(entry.expectedAnswer || "").trim()`) and
replace a literal `"undefined"` (any case) by the empty string, then store. -/
def addMarkSchemeEntry (s : Storage) (entry : InsertMarkSchemeEntry) :
    MarkSchemeEntry × Storage :=
  let id := s.currentMarkSchemeEntryId
  let ea0 := jsTrim entry.expectedAnswer
  let ea := if jsLower ea0 == "undefined" then "" else ea0
  let newEntry : MarkSchemeEntry :=
    ⟨id, entry.questionNumber, ea, entry.points, entry.testId⟩
  (newEntry,
    { s with
      markSchemeEntries := s.markSchemeEntries ++ [newEntry]
      currentMarkSchemeEntryId := id + 1 })

/-- `MemStorage.addMarkSchemeEntries` (storage.ts lines 113-117): add each
entry in order. -/
def addMarkSchemeEntries (s : Storage) (entries : List InsertMarkSchemeEntry) :
    List MarkSchemeEntry × Storage :=
  entries.foldl
    (fun acc e =>
      let (r, s') := addMarkSchemeEntry acc.2 e
      (acc.1 ++ [r], s'))
    ([], s)

/-- Stable insertion of an entry into a list sorted by question number
(keeps earlier entries first on ties). -/
def insortByQ (e : MarkSchemeEntry) : List MarkSchemeEntry → List MarkSchemeEntry
  | [] => [e]
  | f :: rest =>
    if e.questionNumber < f.questionNumber then e :: f :: rest
    else f :: insortByQ e rest

/-- Stable sort by ascending question number, modelling the JS
`sort((a, b) => a.questionNumber - b.questionNumber)`. -/
def sortByQ (l : List MarkSchemeEntry) : List MarkSchemeEntry :=
  l.foldl (fun acc e => insortByQ e acc) []

/-- `MemStorage.getMarkScheme` (storage.ts lines 76-84): the entries of the
test in insertion order, sorted by ascending question number. -/
def getMarkScheme (s : Storage) (testId : Nat) : List MarkSchemeEntry :=
  sortByQ (s.markSchemeEntries.filter (fun e => e.testId == testId))

/-- `MemStorage.createTest` (storage.ts lines 120-126): assign the next id and
store a new test record (this never updates an existing record). -/
def createTest (s : Storage) (t : InsertTest) : Test × Storage :=
  let id := s.currentTestId
  let newTest : Test := ⟨id, t.name, t.totalQuestions, t.totalPoints⟩
  (newTest,
    { s with tests := s.tests ++ [newTest], currentTestId := id + 1 })

/-- `MemStorage.getTest` (storage.ts lines 128-130). -/
def getTest (s : Storage) (id : Nat) : Option Test :=
  s.tests.find? (fun t => t.id == id)

/-- `MemStorage.addPage` (storage.ts lines 137-148). -/
def addPage (s : Storage) (testId pageNumber : Nat) (imageData : String) :
    Page × Storage :=
  let id := s.currentPageId
  let newPage : Page := ⟨id, testId, pageNumber, imageData, false, []⟩
  (newPage,
    { s with pages := s.pages ++ [newPage], currentPageId := id + 1 })

/-- `MemStorage.updatePageProcessed` (storage.ts lines 172-190): look the page
up by id (throwing when absent), set `processed`, and set `extractedAnswers`
to the argument when one was passed (`extractedAnswers || page.extractedAnswers`;
an omitted or `undefined` argument is `none` and keeps the stored map). -/
def updatePageProcessed (s : Storage) (id : Nat) (processed : Bool)
    (extractedAnswers : Option AnswerMap) : Except String (Page × Storage) :=
  match s.pages.find? (fun p => p.id == id) with
  | none => .error ("Page with id " ++ decStr id ++ " not found")
  | some page =>
    let updatedPage : Page :=
      { page with
        processed := processed
        extractedAnswers :=
          match extractedAnswers with
          | some ea => ea
          | none => page.extractedAnswers }
    .ok (updatedPage,
      { s with pages := s.pages.map (fun p => if p.id == id then updatedPage else p) })

/-- `MemStorage.addResult` (storage.ts lines 193-199): assign the next id and
store; nothing is removed or replaced. -/
def addResult (s : Storage) (r : InsertResult) : StoredResult × Storage :=
  let id := s.currentResultId
  let newResult : StoredResult :=
    ⟨id, r.testId, r.studentAnswers, r.pointsEarned, r.totalPoints, r.scorePercentage⟩
  (newResult,
    { s with results := s.results ++ [newResult], currentResultId := id + 1 })

/-- `MemStorage.getResult` (storage.ts lines 201-205):
`Array.from(this.results.values()).find(r => r.testId === testId)` — the
first stored result for the test in insertion order. -/
def getResult (s : Storage) (testId : Nat) : Option StoredResult :=
  s.results.find? (fun r => r.testId == testId)

/-- One detailed result item (storage.ts lines 222-240): the student answer
defaults to the empty string (`result.studentAnswers[...] || ''`), the
expected answer is re-trimmed, correctness is case-insensitive equality. -/
def resultItemOf (studentAnswers : AnswerMap) (entry : MarkSchemeEntry) : ResultItem :=
  let studentAnswer :=
    match alookup (decStr entry.questionNumber) studentAnswers with
    | some sa => sa
    | none => ""
  let expectedAnswer := jsTrim entry.expectedAnswer
  let correct := jsUpper studentAnswer == jsUpper expectedAnswer
  { questionNumber := entry.questionNumber
    studentAnswer := studentAnswer
    expectedAnswer := expectedAnswer
    points := entry.points
    earnedPoints := if correct then entry.points else 0
    correct := correct }

/-- `MemStorage.getDetailedResults` (storage.ts lines 207-243): empty when the
test has no stored result or no mark-scheme entries; otherwise each current
mark-scheme entry paired against the found result's student answers. -/
def getDetailedResults (s : Storage) (testId : Nat) : List ResultItem :=
  match getResult s testId with
  | none => []
  | some result =>
    let markScheme := getMarkScheme s testId
    if markScheme.isEmpty then []
    else markScheme.map (resultItemOf result.studentAnswers)

/-- The route body after validation (routes.ts lines 60-93): despite the
comment about clearing existing entries, nothing is deleted — the new rows are
added (trimmed) through `addMarkSchemeEntries`; then, when the test exists,
`createTest` is called with the refreshed totals of the new entries (which
stores a second test record under a fresh id rather than updating the old
one). -/
def postMarkScheme (s : Storage) (testId : Nat) (rows : List MarkSchemeRow) :
    List MarkSchemeEntry × Storage :=
  let (entries, s1) := addMarkSchemeEntries s
    (rows.map (fun r =>
      ⟨r.questionNumber, jsTrim r.expectedAnswer, r.points, testId⟩))
  match getTest s1 testId with
  | some test =>
    let totalQuestions := entries.length
    let totalPoints := entries.foldl (fun acc e => acc + e.points) 0
    (entries, (createTest s1 ⟨test.name, totalQuestions, totalPoints⟩).2)
  | none => (entries, s1)

/-- First-defined choice on options (used to state fold characterizations). -/
def oor (a b : Option String) : Option String :=
  match a with
  | some v => some v
  | none => b

/-- Reachable store holding the scenario mark scheme
(`[{1,"A",5},{2,"B",5},{3,"",5}]` for test 1) and the result the client
computes for the scenario answers. -/
def scenarioStore : Storage :=
  let s1 := (addMarkSchemeEntries Storage.empty
    [⟨1, "A", 5, 1⟩, ⟨2, "B", 5, 1⟩, ⟨3, "", 5, 1⟩]).2
  (addResult s1 ⟨1, [("1", "a"), ("2", "C"), ("3", "")], 5, 15, some 33⟩).2

/-- The scenario's merged student answers `{"1":"a","2":"C","3":""}`. -/
def scenarioAnswers : AnswerMap := [("1", "a"), ("2", "C"), ("3", "")]

/-- Store after creating test 1 (named "Quiz", totals 0/0). -/
def uploadStore1 : Storage := (createTest Storage.empty ⟨"Quiz", 0, 0⟩).2

/-- Store after the first mark-scheme upload for test 1: one row `{1,"A",5}`. -/
def uploadStore2 : Storage := (postMarkScheme uploadStore1 1 [⟨1, "A", 5⟩]).2

/-- Store after re-uploading a different mark scheme for test 1:
one row `{1,"B",3}`. -/
def uploadStore3 : Storage := (postMarkScheme uploadStore2 1 [⟨1, "B", 3⟩]).2

/-- First result inserted for test 1: answers `{"1":"A"}`. -/
def firstResultInsert : InsertResult := ⟨1, [("1", "A")], 5, 5, some 100⟩

/-- Second (most recent) result inserted for test 1: answers `{"1":"B"}`. -/
def secondResultInsert : InsertResult := ⟨1, [("1", "B")], 0, 5, some 0⟩

/-- Store with the two results for test 1 recorded in order. -/
def twoResultsStore : Storage :=
  (addResult (addResult Storage.empty firstResultInsert).2 secondResultInsert).2

/-- The error payload of an `Except`, when it is an error. -/
def exceptError? {α : Type} : Except String α → Option String
  | .error e => some e
  | .ok _ => none

/-- Page 1 of test 1, reporting question 1 as "A". -/
def pageOne : Page := ⟨1, 1, 1, "img1", true, [("1", "A")]⟩

/-- Page 2 of test 1, also reporting question 1, as "B". -/
def pageTwo : Page := ⟨2, 1, 2, "img2", true, [("1", "B")]⟩

/-- Page 3 of test 1, reporting only question 2 (disjoint from page 1). -/
def pageThree : Page := ⟨3, 1, 3, "img3", true, [("2", "D")]⟩

/-- Store with the mark scheme `{1,"A",5}` for test 1. -/
def detailedStore0 : Storage :=
  (addMarkSchemeEntries Storage.empty [⟨1, "A", 5, 1⟩]).2

/-- First result recorded for test 1: answers `{"1":"B"}` (incorrect). -/
def detailedInsert1 : InsertResult := ⟨1, [("1", "B")], 0, 5, some 0⟩

/-- Second (most recent) result recorded for test 1: answers `{"1":"A"}`. -/
def detailedInsert2 : InsertResult := ⟨1, [("1", "A")], 5, 5, some 100⟩

/-- Store after both results were recorded, in order. -/
def detailedStore2 : Storage :=
  (addResult (addResult detailedStore0 detailedInsert1).2 detailedInsert2).2

/-- Store holding one captured page (id 1, test 1, page number 1). -/
def pageStore : Storage := (addPage Storage.empty 1 1 "img").2

/-! ## Theorems: library lemmas about the embedded operations,
followed by the claim theorems C1-C10 -/

theorem digitChar_val (k : Nat) (h : k < 10) : (digitChar k).toNat - 48 = k := by
  interval_cases k <;> rfl

theorem foldl_decCharsFuel (fuel : Nat) :
    ∀ n < fuel, (decCharsFuel fuel n).foldl (fun a c => a * 10 + (c.toNat - 48)) 0 = n := by
  induction fuel with
  | zero => omega
  | succ fuel ih =>
    intro n hn
    unfold decCharsFuel
    split
    · rename_i h
      simp only [List.foldl]
      rw [digitChar_val n h]
      omega
    · rename_i h
      rw [List.foldl_append]
      have hq : n / 10 < fuel := by
        have hlt : n / 10 < n := Nat.div_lt_self (by omega) (by omega)
        omega
      rw [ih (n / 10) hq]
      simp only [List.foldl]
      rw [digitChar_val (n % 10) (Nat.mod_lt _ (by omega))]
      omega

theorem natOfDigits_decStr (n : Nat) : natOfDigits (decStr n) = n := by
  unfold natOfDigits decStr decChars
  exact foldl_decCharsFuel (n + 1) n (by omega)

theorem oor_assoc (a b c : Option String) : oor (oor a b) c = oor a (oor b c) := by
  cases a <;> rfl

theorem oor_none_right (a : Option String) : oor a none = a := by
  cases a <;> rfl

theorem alookup_append (m₁ m₂ : AnswerMap) (q : String) :
    alookup q (m₁ ++ m₂) = oor (alookup q m₁) (alookup q m₂) := by
  induction m₁ with
  | nil => rfl
  | cons kv rest ih =>
    simp only [List.cons_append, alookup]
    split
    · rfl
    · exact ih

theorem alookup_eq_none_of_not_mem (m : AnswerMap) (k : String)
    (h : k ∉ m.map Prod.fst) : alookup k m = none := by
  induction m with
  | nil => rfl
  | cons kv rest ih =>
    simp only [List.map_cons, List.mem_cons] at h
    push_neg at h
    simp only [alookup]
    have hne : ¬ ((kv.1 == k) = true) := by
      intro hc
      exact h.1 ((beq_iff_eq.mp hc).symm)
    rw [if_neg hne]
    exact ih h.2

theorem alookup_eq_none_of_not_any (m : AnswerMap) (k : String)
    (h : m.any (fun kv => kv.1 == k) = false) : alookup k m = none := by
  induction m with
  | nil => rfl
  | cons kv rest ih =>
    simp only [List.any_cons, Bool.or_eq_false_iff] at h
    simp only [alookup]
    rw [if_neg (by simp_all)]
    exact ih h.2

theorem alookup_map_set_ne (m : AnswerMap) (k v q : String)
    (h : (k == q) = false) :
    alookup q (m.map (fun kv => if kv.1 == k then (k, v) else kv)) =
      alookup q m := by
  induction m with
  | nil => rfl
  | cons kv rest ih =>
    simp only [List.map_cons]
    by_cases hk : (kv.1 == k) = true
    · rw [if_pos hk]
      simp only [alookup]
      have hkv : kv.1 = k := by simpa using hk
      have h1 : ¬ ((k == q) = true) := by simp [h]
      have h2 : ¬ ((kv.1 == q) = true) := by
        rw [hkv]
        simp [h]
      rw [if_neg h1, if_neg h2]
      exact ih
    · rw [if_neg hk]
      simp only [alookup]
      split
      · rfl
      · exact ih

theorem alookup_map_set_self (m : AnswerMap) (k v : String)
    (h : m.any (fun kv => kv.1 == k) = true) :
    alookup k (m.map (fun kv => if kv.1 == k then (k, v) else kv)) = some v := by
  induction m with
  | nil => simp at h
  | cons kv rest ih =>
    simp only [List.map_cons]
    by_cases hk : (kv.1 == k) = true
    · rw [if_pos hk]
      simp only [alookup]
      rw [if_pos (by simp)]
    · rw [if_neg hk]
      simp only [alookup]
      rw [if_neg hk]
      apply ih
      simp only [List.any_cons, Bool.or_eq_true] at h
      exact h.resolve_left hk

theorem alookup_mset (m : AnswerMap) (k v q : String) :
    alookup q (mset m k v) = if (k == q) = true then some v else alookup q m := by
  unfold mset
  by_cases hany : (m.any (fun kv => kv.1 == k)) = true
  · rw [if_pos hany]
    by_cases hq : (k == q) = true
    · have hkq : k = q := by simpa using hq
      subst hkq
      rw [if_pos (beq_self_eq_true k), alookup_map_set_self m k v hany]
    · rw [if_neg hq, alookup_map_set_ne m k v q (by simpa using hq)]
  · rw [if_neg hany, alookup_append]
    by_cases hq : (k == q) = true
    · have hkq : k = q := by simpa using hq
      subst hkq
      rw [alookup_eq_none_of_not_any m k (eq_false_of_ne_true hany)]
      simp [alookup, oor]
    · rw [if_neg hq]
      have : alookup q [(k, v)] = none := by
        simp only [alookup]
        rw [if_neg hq]
      rw [this, oor_none_right]

theorem alookup_objAssign (src : AnswerMap) (m : AnswerMap) (q : String)
    (h : (src.map Prod.fst).Nodup) :
    alookup q (objAssign m src) = oor (alookup q src) (alookup q m) := by
  induction src generalizing m with
  | nil => rfl
  | cons kv rest ih =>
    simp only [List.map_cons, List.nodup_cons] at h
    have step : objAssign m (kv :: rest) = objAssign (mset m kv.1 kv.2) rest := rfl
    rw [step, ih (mset m kv.1 kv.2) h.2, alookup_mset]
    by_cases hq : (kv.1 == q) = true
    · have hkq : kv.1 = q := by simpa using hq
      have hrest : alookup q rest = none := by
        apply alookup_eq_none_of_not_mem
        rw [← hkq]
        exact h.1
      rw [if_pos hq, hrest]
      simp only [alookup, if_pos hq, oor]
    · rw [if_neg hq]
      simp only [alookup, if_neg hq]

/-- The merge fold, characterized pointwise: the value of `q` is the one
written by the last page (in iteration order) whose map defines `q`, falling
back to the initial accumulator. -/
theorem alookup_foldl_pages (ps : List Page) (m : AnswerMap) (q : String)
    (h : ∀ p ∈ ps, (p.extractedAnswers.map Prod.fst).Nodup) :
    alookup q (ps.foldl (fun acc p => objAssign acc p.extractedAnswers) m) =
      oor ((ps.filterMap (fun p => alookup q p.extractedAnswers)).getLast?)
        (alookup q m) := by
  induction ps generalizing m with
  | nil => rfl
  | cons p rest ih =>
    have hp := h p (List.mem_cons_self p rest)
    have hrest : ∀ r ∈ rest, (r.extractedAnswers.map Prod.fst).Nodup :=
      fun r hr => h r (List.mem_cons_of_mem p hr)
    simp only [List.foldl_cons]
    rw [ih (objAssign m p.extractedAnswers) hrest,
      alookup_objAssign p.extractedAnswers m q hp]
    simp only [List.filterMap_cons]
    cases hpq : alookup q p.extractedAnswers with
    | none => simp [oor]
    | some v =>
      cases hlast : (rest.filterMap (fun p => alookup q p.extractedAnswers)).getLast? with
      | none =>
        have : rest.filterMap (fun p => alookup q p.extractedAnswers) = [] := by
          cases hfm : rest.filterMap (fun p => alookup q p.extractedAnswers) with
          | nil => rfl
          | cons a l =>
            rw [hfm] at hlast
            simp [List.getLast?_cons] at hlast
        rw [this]
        simp [oor]
      | some w =>
        have hgl : (v :: rest.filterMap (fun p => alookup q p.extractedAnswers)).getLast?
            = some w := by
          cases hfm : rest.filterMap (fun p => alookup q p.extractedAnswers) with
          | nil => rw [hfm] at hlast; simp at hlast
          | cons a l =>
            rw [List.getLast?_cons_cons]
            rw [← hfm, hlast]
        rw [hgl]
        rfl

/-- `mergePages`, characterized pointwise: last defining page in iteration
order wins. -/
theorem alookup_mergePages (ps : List Page) (q : String)
    (h : ∀ p ∈ ps, (p.extractedAnswers.map Prod.fst).Nodup) :
    alookup q (mergePages ps) =
      (ps.filterMap (fun p => alookup q p.extractedAnswers)).getLast? := by
  unfold mergePages
  rw [alookup_foldl_pages ps [] q h]
  simp only [alookup, oor_none_right]

/-- With pairwise-increasing page numbers, the page of maximal page number
among those defining `q` supplies the merged value of `q`. -/
theorem mergePages_highest_page (ps : List Page) (p : Page) (v q : String)
    (hnd : ∀ r ∈ ps, (r.extractedAnswers.map Prod.fst).Nodup)
    (hsort : ps.Pairwise (fun a b => a.pageNumber < b.pageNumber))
    (hp : p ∈ ps) (hv : alookup q p.extractedAnswers = some v)
    (hmax : ∀ r ∈ ps, (alookup q r.extractedAnswers).isSome = true →
      r.pageNumber ≤ p.pageNumber) :
    alookup q (mergePages ps) = some v := by
  rw [alookup_mergePages ps q hnd]
  induction ps with
  | nil => simp at hp
  | cons a rest ih =>
    rw [List.pairwise_cons] at hsort
    rcases List.mem_cons.mp hp with hpa | hpr
    · subst hpa
      have hnone : ∀ r ∈ rest, alookup q r.extractedAnswers = none := by
        intro r hr
        cases hcase : alookup q r.extractedAnswers with
        | none => rfl
        | some w =>
          have hle := hmax r (List.mem_cons_of_mem _ hr) (by rw [hcase]; rfl)
          have hlt := hsort.1 r hr
          omega
      have hfm : rest.filterMap (fun r => alookup q r.extractedAnswers) = [] :=
        List.filterMap_eq_nil_iff.mpr hnone
      simp [List.filterMap_cons, hv, hfm]
    · have hrec := ih (fun r hr => hnd r (List.mem_cons_of_mem _ hr)) hsort.2 hpr
        (fun r hr hs => hmax r (List.mem_cons_of_mem _ hr) hs)
      simp only [List.filterMap_cons]
      cases hcase : alookup q a.extractedAnswers with
      | none => exact hrec
      | some w =>
        cases hfm : rest.filterMap (fun r => alookup q r.extractedAnswers) with
        | nil =>
          rw [hfm] at hrec
          simp at hrec
        | cons b l =>
          rw [List.getLast?_cons_cons, ← hfm, hrec]

/-- At most one page defines `q` when extracted-answer domains are pairwise
disjoint. -/
theorem filterMap_answers_subsingleton (ps : List Page) (q : String)
    (hdisj : ps.Pairwise (fun a b => ∀ r, (alookup r a.extractedAnswers).isSome = true →
      alookup r b.extractedAnswers = none)) :
    (ps.filterMap (fun p => alookup q p.extractedAnswers)).length ≤ 1 := by
  induction ps with
  | nil => simp
  | cons a rest ih =>
    rw [List.pairwise_cons] at hdisj
    simp only [List.filterMap_cons]
    cases hcase : alookup q a.extractedAnswers with
    | none => exact ih hdisj.2
    | some v =>
      have hnone : ∀ r ∈ rest, alookup q r.extractedAnswers = none := by
        intro r hr
        exact hdisj.1 r hr q (by rw [hcase]; rfl)
      have hfm : rest.filterMap (fun r => alookup q r.extractedAnswers) = [] :=
        List.filterMap_eq_nil_iff.mpr hnone
      simp [hfm]

theorem perm_eq_of_length_le_one {α : Type} {l l' : List α}
    (hperm : l.Perm l') (hlen : l.length ≤ 1) : l = l' := by
  match l, hlen with
  | [], _ => exact (hperm.nil_eq).symm ▸ rfl
  | [a], _ => exact List.singleton_perm.mp hperm

/-- Merging pages with pairwise disjoint extracted-answer domains is
order-invariant: any permutation of the page list yields a map with the same
lookups. -/
theorem mergePages_disjoint_perm (ps ps' : List Page) (q : String)
    (hnd : ∀ r ∈ ps, (r.extractedAnswers.map Prod.fst).Nodup)
    (hperm : ps.Perm ps')
    (hdisj : ps.Pairwise (fun a b => ∀ r, (alookup r a.extractedAnswers).isSome = true →
      alookup r b.extractedAnswers = none)) :
    alookup q (mergePages ps) = alookup q (mergePages ps') := by
  have hnd' : ∀ r ∈ ps', (r.extractedAnswers.map Prod.fst).Nodup :=
    fun r hr => hnd r (hperm.mem_iff.mpr hr)
  rw [alookup_mergePages ps q hnd, alookup_mergePages ps' q hnd']
  have hfmperm : (ps.filterMap (fun p => alookup q p.extractedAnswers)).Perm
      (ps'.filterMap (fun p => alookup q p.extractedAnswers)) :=
    hperm.filterMap _
  rw [perm_eq_of_length_le_one hfmperm (filterMap_answers_subsingleton ps q hdisj)]

/-- C1, counterexample: on the spec's end-to-end scenario the client summary
(`processImagesMutation`) earns 5 points — question 3 (empty expected answer,
empty student answer) fails the truthiness guard — while the server's
detailed results award it full points (summing to 10).  The two are not
identical, and the summary is 5/15 = 33%, not the claimed 10/15 = 67%. -/
theorem C1_counterexample :
    summaryPointsEarned (getMarkScheme scenarioStore 1) scenarioAnswers = 5 ∧
    summaryTotalPoints (getMarkScheme scenarioStore 1) = 15 ∧
    scorePercentageJS (getMarkScheme scenarioStore 1) scenarioAnswers = some 33 ∧
    ((getDetailedResults scenarioStore 1).map (fun i => i.earnedPoints)).sum = 10 ∧
    summaryPointsEarned (getMarkScheme scenarioStore 1) scenarioAnswers ≠
      ((getDetailedResults scenarioStore 1).map (fun i => i.earnedPoints)).sum := by
  decide

/-- C1, amended: a question whose (trimmed) expected answer is empty and whose
student answer is missing or empty is marked correct with full points in the
detailed results (`getDetailedResults`), but contributes nothing to the
summary `pointsEarned` computed by the client (`processImagesMutation`),
whose truthiness guard rejects empty student answers; on the end-to-end
scenario the summary is `{pointsEarned 5, totalPoints 15, scorePercentage 33}`
while the detailed results are
`[{1,correct,5/5},{2,incorrect,0/5},{3,correct,5/5}]`. -/
theorem C1_amended (answers : AnswerMap) (e : MarkSchemeEntry)
    (hexp : jsTrim e.expectedAnswer = "")
    (hstu : alookup (decStr e.questionNumber) answers = none ∨
      alookup (decStr e.questionNumber) answers = some "") :
    ((resultItemOf answers e).correct = true ∧
     (resultItemOf answers e).earnedPoints = e.points ∧
     clientCorrect answers e = false) ∧
    summaryPointsEarned (getMarkScheme scenarioStore 1) scenarioAnswers = 5 ∧
    summaryTotalPoints (getMarkScheme scenarioStore 1) = 15 ∧
    scorePercentageJS (getMarkScheme scenarioStore 1) scenarioAnswers = some 33 ∧
    getDetailedResults scenarioStore 1 =
      [⟨1, "a", "A", 5, 5, true⟩, ⟨2, "C", "B", 5, 0, false⟩,
       ⟨3, "", "", 5, 5, true⟩] := by
  refine ⟨?_, by decide, by decide, by decide, by decide⟩
  unfold resultItemOf clientCorrect
  rcases hstu with h | h <;> rw [h, hexp] <;> simp [jsUpper]

/-- C1, witness for the amended theorem at scenario question 3. -/
theorem C1_witness :
    ((resultItemOf scenarioAnswers ⟨3, 3, "", 5, 1⟩).correct = true ∧
     (resultItemOf scenarioAnswers ⟨3, 3, "", 5, 1⟩).earnedPoints = 5 ∧
     clientCorrect scenarioAnswers ⟨3, 3, "", 5, 1⟩ = false) ∧
    summaryPointsEarned (getMarkScheme scenarioStore 1) scenarioAnswers = 5 ∧
    summaryTotalPoints (getMarkScheme scenarioStore 1) = 15 ∧
    scorePercentageJS (getMarkScheme scenarioStore 1) scenarioAnswers = some 33 ∧
    getDetailedResults scenarioStore 1 =
      [⟨1, "a", "A", 5, 5, true⟩, ⟨2, "C", "B", 5, 0, false⟩,
       ⟨3, "", "", 5, 5, true⟩] :=
  C1_amended scenarioAnswers ⟨3, 3, "", 5, 1⟩ (by decide) (Or.inr (by decide))

/-- C2: scoring with an empty mark scheme (`processImagesMutation`,
use-test-grader.ts lines 179-191) yields `totalPoints = 0` and
`pointsEarned = 0`, but `scorePercentage = Math.round((0 / 0) * 100)` is `NaN`
(modelled `none`), not `0`: the code has no `totalPoints > 0` guard. -/
theorem C2_code_eval (results : AnswerMap) :
    summaryTotalPoints [] = 0 ∧
    summaryPointsEarned [] results = 0 ∧
    scorePercentageJS [] results = none :=
  ⟨rfl, rfl, rfl⟩

/-- C3: the upload route never deletes the previous entries (its own comment
says it clears them "to avoid duplicates", but `MemStorage` has no delete and
nothing is overwritten), so after a re-upload the queryable mark scheme for
the test still contains the first upload's entry, with two entries for
question 1. -/
theorem C3_code_eval :
    (getMarkScheme uploadStore3 1).map
        (fun e => (e.questionNumber, e.expectedAnswer, e.points)) =
      [(1, "A", 5), (1, "B", 3)] ∧
    (getMarkScheme uploadStore3 1).length = 2 ∧
    ((getMarkScheme uploadStore3 1).filter (fun e => e.questionNumber == 1)).length ≠ 1 := by
  decide

/-- C7: after the first upload the route's "Update test" step calls
`createTest`, which stores a fresh record under a new id instead of updating
test 1 — so fetching test 1 still returns the stale totals 0/0, while the
refreshed totals 1/5 sit on a new test record with id 2. -/
theorem C7_code_eval :
    getTest uploadStore2 1 = some ⟨1, "Quiz", 0, 0⟩ ∧
    getTest uploadStore2 1 ≠ some ⟨1, "Quiz", 1, 5⟩ ∧
    getTest uploadStore2 2 = some ⟨2, "Quiz", 1, 5⟩ ∧
    (getMarkScheme uploadStore2 1).length = 1 ∧
    (getMarkScheme uploadStore2 1).foldl (fun acc e => acc + e.points) 0 = 5 := by
  decide

/-- `getResult` after two `addResult` calls for the same test (on a store
with no prior result for it) returns the record of the FIRST inserted result:
`Array.prototype.find` scans the id-ordered map values front to back. -/
theorem getResult_two_adds (s : Storage) (r1 r2 : InsertResult) (t : Nat)
    (h : ∀ r ∈ s.results, r.testId ≠ t) (h1 : r1.testId = t) (_h2 : r2.testId = t) :
    getResult ((addResult (addResult s r1).2 r2).2) t =
      some ⟨s.currentResultId, r1.testId, r1.studentAnswers, r1.pointsEarned,
        r1.totalPoints, r1.scorePercentage⟩ := by
  unfold getResult addResult
  simp only [List.append_assoc, List.find?_append]
  have hnone : s.results.find? (fun r => r.testId == t) = none :=
    List.find?_eq_none.mpr (fun r hr => by simp [h r hr])
  rw [hnone]
  simp [List.find?, h1]

/-- C4, counterexample: with two results recorded for test 1, `getResult`
returns the first recorded one (answers `{"1":"A"}`), not the most recently
recorded one (id 2, answers `{"1":"B"}`). -/
theorem C4_counterexample :
    getResult twoResultsStore 1 = some ⟨1, 1, [("1", "A")], 5, 5, some 100⟩ ∧
    getResult twoResultsStore 1 ≠ some ⟨2, 1, [("1", "B")], 0, 5, some 0⟩ := by
  decide

/-- C4, amended: for every test with stored results, `getResult(testId)`
returns the EARLIEST recorded result for that test; later `addResult` calls
for the same test do not supersede it. -/
theorem C4_amended (s : Storage) (r1 r2 : InsertResult) (t : Nat)
    (h : ∀ r ∈ s.results, r.testId ≠ t) (h1 : r1.testId = t) (h2 : r2.testId = t) :
    getResult ((addResult (addResult s r1).2 r2).2) t =
      some ⟨s.currentResultId, r1.testId, r1.studentAnswers, r1.pointsEarned,
        r1.totalPoints, r1.scorePercentage⟩ :=
  getResult_two_adds s r1 r2 t h h1 h2

/-- C4, witness: the amended theorem applied to the concrete two-result run. -/
theorem C4_witness :
    getResult twoResultsStore 1 = some ⟨1, 1, [("1", "A")], 5, 5, some 100⟩ :=
  C4_amended Storage.empty firstResultInsert secondResultInsert 1
    (fun r hr => by simp [Storage.empty] at hr) rfl rfl

/-- C5: an empty (or missing) expected-answer cell coerces to the empty
string as the claim says, but `markSchemeRowSchema` requires
`z.string().min(1)`, so validation rejects the row and the whole batch
upload fails with a row error — contradicting the normalizer's own log
message that an empty answer "is ok for blank answers". -/
theorem C5_code_eval :
    coerceExpectedAnswer (JSValue.str "") = "" ∧
    coerceExpectedAnswer JSValue.undef = "" ∧
    coerceExpectedAnswer JSValue.null = "" ∧
    (normalizeRow ⟨JSValue.str "1", JSValue.str "", JSValue.str "5"⟩ 0).isOk = false ∧
    exceptError? (normalizeRows
        [⟨JSValue.str "1", JSValue.str "A", JSValue.str "5"⟩,
         ⟨JSValue.str "2", JSValue.str "", JSValue.str "5"⟩]) =
      some
        "Row 2 has invalid data: expectedAnswer: String must contain at least 1 character(s)" := by
  decide

/-- C6, counterexample: merging the two conflicting pages in the order
`[page 2, page 1]` yields question 1 = "A" — the answer of the LAST page
merged — although the highest page number among the conflicting pages is
page 2, whose answer is "B".  The aggregation is therefore not independent
of iteration order. -/
theorem C6_counterexample :
    alookup "1" pageOne.extractedAnswers = some "A" ∧
    alookup "1" pageTwo.extractedAnswers = some "B" ∧
    pageOne.pageNumber < pageTwo.pageNumber ∧
    alookup "1" (mergePages [pageTwo, pageOne]) = some "A" ∧
    alookup "1" (mergePages [pageTwo, pageOne]) ≠ some "B" := by
  decide

/-- C6, amended: the merged map gives each question the answer of the page
merged LAST among those defining it.  Consequently (i) when the pages are
merged in ascending page-number order — the client's capture order — a
question defined by several pages gets the answer of the one with the
highest page number, and (ii) for pages with pairwise disjoint question
sets the merge is order-invariant (lookup-equal under any permutation). -/
theorem C6_amended :
    (∀ (ps : List Page) (p : Page) (v q : String),
      (∀ r ∈ ps, (r.extractedAnswers.map Prod.fst).Nodup) →
      ps.Pairwise (fun a b => a.pageNumber < b.pageNumber) →
      p ∈ ps →
      alookup q p.extractedAnswers = some v →
      (∀ r ∈ ps, (alookup q r.extractedAnswers).isSome = true →
        r.pageNumber ≤ p.pageNumber) →
      alookup q (mergePages ps) = some v) ∧
    (∀ (ps ps' : List Page) (q : String),
      (∀ r ∈ ps, (r.extractedAnswers.map Prod.fst).Nodup) →
      ps.Perm ps' →
      ps.Pairwise (fun a b => ∀ r, (alookup r a.extractedAnswers).isSome = true →
        alookup r b.extractedAnswers = none) →
      alookup q (mergePages ps) = alookup q (mergePages ps')) :=
  ⟨fun ps p v q hnd hsort hp hv hmax =>
      mergePages_highest_page ps p v q hnd hsort hp hv hmax,
   fun ps ps' q hnd hperm hdisj =>
      mergePages_disjoint_perm ps ps' q hnd hperm hdisj⟩

/-- A defined key of an association list is among its keys. -/
theorem alookup_isSome_imp_mem (m : AnswerMap) (q : String)
    (h : (alookup q m).isSome = true) : q ∈ m.map Prod.fst := by
  induction m with
  | nil => simp [alookup] at h
  | cons kv rest ih =>
    simp only [alookup] at h
    by_cases hk : (kv.1 == q) = true
    · simp [(beq_iff_eq.mp hk).symm]
    · rw [if_neg hk] at h
      simp [ih h]

/-- C6, witness: ascending order `[page 1, page 2]` gives question 1 the
highest page's answer "B"; the disjoint pages 1 and 3 merge to lookup-equal
maps in either order. -/
theorem C6_witness :
    alookup "1" (mergePages [pageOne, pageTwo]) = some "B" ∧
    alookup "2" (mergePages [pageOne, pageThree]) =
      alookup "2" (mergePages [pageThree, pageOne]) :=
  ⟨C6_amended.1 [pageOne, pageTwo] pageTwo "B" "1"
      (by decide) (by decide) (by decide) (by decide) (by decide),
   C6_amended.2 [pageOne, pageThree] [pageThree, pageOne] "2"
      (by decide) (by decide)
      (by
        refine List.pairwise_cons.mpr ⟨?_, List.pairwise_singleton _ _⟩
        intro b hb r hr
        have hb' : b = pageThree := by simpa using hb
        subst hb'
        have hr' : r ∈ pageOne.extractedAnswers.map Prod.fst :=
          alookup_isSome_imp_mem _ _ hr
        have hr1 : r = "1" := by simpa [pageOne] using hr'
        subst hr1
        decide)⟩

/-- C8: the normalizer's numeric coercions.  A question-number cell "Q7"
yields 7 and a points cell "10 pts" yields 10 (non-digits stripped before
parsing); a missing (`undefined`/`null`) question-number cell, or one whose
string contains no digits, falls back to `rowIndex + 1` (1-based); a
missing/null/empty points cell, or one whose string contains no digits,
defaults to 1. -/
theorem C8_theorem :
    (∀ idx : Nat, coerceQuestionNumber (JSValue.str "Q7") idx = 7) ∧
    coercePoints (JSValue.str "10 pts") = 10 ∧
    (∀ idx : Nat,
      coerceQuestionNumber JSValue.undef idx = Int.ofNat (idx + 1) ∧
      coerceQuestionNumber JSValue.null idx = Int.ofNat (idx + 1)) ∧
    (∀ (idx : Nat) (s : String), digitsOnly s = "" →
      coerceQuestionNumber (JSValue.str s) idx = Int.ofNat (idx + 1)) ∧
    (coercePoints JSValue.undef = 1 ∧ coercePoints JSValue.null = 1 ∧
      coercePoints (JSValue.str "") = 1) ∧
    (∀ s : String, digitsOnly s = "" → coercePoints (JSValue.str s) = 1) := by
  refine ⟨?_, by decide, ?_, ?_, by decide, ?_⟩
  · intro idx
    show Int.ofNat (natOfDigits (orIfEmpty (digitsOnly (jsToString (JSValue.str "Q7")))
      (decStr (idx + 1)))) = 7
    rw [show digitsOnly (jsToString (JSValue.str "Q7")) = "7" from by decide]
    rw [show orIfEmpty "7" (decStr (idx + 1)) = "7" from by
      unfold orIfEmpty
      simp]
    decide
  · intro idx
    exact ⟨rfl, rfl⟩
  · intro idx s hs
    by_cases hempty : s = ""
    · subst hempty
      show Int.ofNat (natOfDigits (orIfEmpty (digitsOnly "") (decStr (idx + 1)))) =
        Int.ofNat (idx + 1)
      rw [show digitsOnly "" = "" from rfl]
      unfold orIfEmpty
      rw [if_pos rfl, natOfDigits_decStr]
    · show Int.ofNat (natOfDigits (orIfEmpty (digitsOnly (jsToString (JSValue.str s)))
        (decStr (idx + 1)))) = Int.ofNat (idx + 1)
      rw [show jsToString (JSValue.str s) = s from rfl, hs]
      unfold orIfEmpty
      rw [if_pos rfl, natOfDigits_decStr]
  · intro s hs
    by_cases hempty : s = ""
    · subst hempty
      decide
    · show coercePoints (JSValue.str s) = 1
      unfold coercePoints
      rw [show jsTruthy (JSValue.str s) = true from by
        simp [jsTruthy, hempty]]
      simp only [if_true]
      rw [if_neg (by simp [hempty])]
      show Int.ofNat (if natOfDigits (orIfEmpty (digitsOnly (jsToString (JSValue.str s))) "1") = 0
        then 1 else natOfDigits (orIfEmpty (digitsOnly (jsToString (JSValue.str s))) "1")) = 1
      rw [show jsToString (JSValue.str s) = s from rfl, hs]
      decide

/-- C8, witness: concrete instantiations of each coercion rule. -/
theorem C8_witness :
    coerceQuestionNumber (JSValue.str "Q7") 3 = 7 ∧
    coerceQuestionNumber JSValue.undef 4 = 5 ∧
    coerceQuestionNumber (JSValue.str "abc") 4 = 5 ∧
    coercePoints (JSValue.str "pts") = 1 :=
  ⟨C8_theorem.1 3,
   (C8_theorem.2.2.1 4).1,
   C8_theorem.2.2.2.1 4 "abc" (by decide),
   C8_theorem.2.2.2.2.2 "pts" (by decide)⟩

/-- C9, counterexample: with two results recorded for test 1,
`getDetailedResults` pairs the mark scheme with the student answers of the
FIRST recorded result (`{"1":"B"}`, scored incorrect), not those of the most
recently recorded one (`{"1":"A"}`). -/
theorem C9_counterexample :
    getDetailedResults detailedStore2 1 = [⟨1, "B", "A", 5, 0, false⟩] ∧
    getDetailedResults detailedStore2 1 ≠ [⟨1, "A", "A", 5, 5, true⟩] := by
  decide

/-- C9, amended: `getDetailedResults(testId)` returns `[]` (without
throwing — it is total) when no result is stored for the test; when results
exist it recomputes every item fresh from the currently stored mark scheme
paired with the student answers of the EARLIEST recorded result for the test
(a missing student answer is treated as the empty string). -/
theorem C9_amended :
    (∀ (s : Storage) (t : Nat), (∀ r ∈ s.results, r.testId ≠ t) →
      getDetailedResults s t = []) ∧
    (∀ (s : Storage) (r1 r2 : InsertResult) (t : Nat),
      (∀ r ∈ s.results, r.testId ≠ t) → r1.testId = t → r2.testId = t →
      getDetailedResults ((addResult (addResult s r1).2 r2).2) t =
        (if (getMarkScheme ((addResult (addResult s r1).2 r2).2) t).isEmpty then []
         else (getMarkScheme ((addResult (addResult s r1).2 r2).2) t).map
           (resultItemOf r1.studentAnswers))) ∧
    (∀ (answers : AnswerMap) (e : MarkSchemeEntry),
      alookup (decStr e.questionNumber) answers = none →
      (resultItemOf answers e).studentAnswer = "") := by
  refine ⟨?_, ?_, ?_⟩
  · intro s t h
    unfold getDetailedResults
    rw [show getResult s t = none from List.find?_eq_none.mpr
      (fun r hr => by simp [h r hr])]
  · intro s r1 r2 t h h1 h2
    unfold getDetailedResults
    rw [getResult_two_adds s r1 r2 t h h1 h2]
  · intro answers e hmiss
    unfold resultItemOf
    rw [hmiss]

/-- C9, witness for the amended theorem: the empty store has no detailed
results for test 1; the concrete two-result store recomputes from the first
result's answers; a missing student answer defaults to the empty string. -/
theorem C9_witness :
    getDetailedResults Storage.empty 1 = [] ∧
    getDetailedResults detailedStore2 1 =
      (if (getMarkScheme detailedStore2 1).isEmpty then []
       else (getMarkScheme detailedStore2 1).map
         (resultItemOf detailedInsert1.studentAnswers)) ∧
    (resultItemOf [("2", "C")] ⟨1, 1, "A", 5, 1⟩).studentAnswer = "" :=
  ⟨C9_amended.1 Storage.empty 1 (fun r hr => by simp [Storage.empty] at hr),
   C9_amended.2.1 detailedStore0 detailedInsert1 detailedInsert2 1
     (fun r hr => by simp [detailedStore0, addMarkSchemeEntries,
       addMarkSchemeEntry, Storage.empty] at hr)
     rfl rfl,
   C9_amended.2.2 [("2", "C")] ⟨1, 1, "A", 5, 1⟩ (by decide)⟩

/-- C10: for every stored page, `updatePageProcessed` with the
extracted-answers argument omitted (`none`) keeps the page's stored
`extractedAnswers`, and in all cases it changes only `processed` and
`extractedAnswers`: `id`, `testId`, `pageNumber` and `imageData` are
unchanged. -/
theorem C10_theorem (s : Storage) (i : Nat) (pr : Bool)
    (ea : Option AnswerMap) (p : Page)
    (h : s.pages.find? (fun x => x.id == i) = some p) :
    ∃ p' s', updatePageProcessed s i pr ea = .ok (p', s') ∧
      p'.id = p.id ∧ p'.testId = p.testId ∧ p'.pageNumber = p.pageNumber ∧
      p'.imageData = p.imageData ∧ p'.processed = pr ∧
      (ea = none → p'.extractedAnswers = p.extractedAnswers) := by
  unfold updatePageProcessed
  rw [h]
  refine ⟨_, _, rfl, rfl, rfl, rfl, rfl, rfl, ?_⟩
  intro he
  subst he
  rfl

/-- C10, witness: the theorem applied to the concrete one-page store. -/
theorem C10_witness :
    pageStore.pages.find? (fun x => x.id == 1) =
      some ⟨1, 1, 1, "img", false, []⟩ ∧
    ∃ p' s', updatePageProcessed pageStore 1 true none = .ok (p', s') ∧
      p'.id = 1 ∧ p'.testId = 1 ∧ p'.pageNumber = 1 ∧
      p'.imageData = "img" ∧ p'.processed = true ∧
      (none = (none : Option AnswerMap) → p'.extractedAnswers = []) :=
  ⟨by decide,
   C10_theorem pageStore 1 true none ⟨1, 1, 1, "img", false, []⟩ (by decide)⟩
